import Mathlib

/-!
Shallow embedding of the jsapy occupational-safety library
(`src/jsapy/vibrations.py`, `noise.py`, `accidents.py` and the batch
orchestrators in `vibration_tools.py`, `noise_tools.py`, `accidents_tools.py`).

Python floats are modelled as real numbers.  Functions that raise Python
exceptions are modelled in `Except String`, carrying the exception message
(the f-string is modelled as the concatenation it evaluates to).  Input
dictionaries are modelled as structures of `Option ℝ` fields: a key absent
from the dictionary is `none` (Python's `dict.get` returns `None`).
`isinstance(v, (int, float))` checks are vacuously true in the embedding,
since every present field is a real number; non-numeric dictionary values
are outside the embedding.  The non-fatal `warnings.warn` advisories do not
affect any computed value and are not modelled.
-/

namespace Jsapy

open Real

/-- `ExceptSat e P` holds when `e` succeeded and its value satisfies `P`. -/
def ExceptSat {ε α : Type _} (e : Except ε α) (P : α → Prop) : Prop :=
  match e with
  | .ok a => P a
  | .error _ => False

/-- Sum of squares of a list, `np.sum(arr**2)`. -/
def sumSq (l : List ℝ) : ℝ := (l.map (fun x => x ^ 2)).sum

/-- `VibraResult` (vibrations.py).  The two `exceeds` flags are computed at
construction time from the exposure value and the thresholds; they are
modelled as `Prop` fields filled in by `mkVibraResult`. -/
structure VibraResult where
  exposure_value : ℝ
  exposure_type : String
  action_value : ℝ
  limit_value : ℝ
  unit : String
  exceeds_action : Prop
  exceeds_limit : Prop

/-- `VibraResult.__init__`: stores the fields and computes
`exceeds_action = exposure_value > action_value` and
`exceeds_limit = exposure_value > limit_value` (strict `>`). -/
def mkVibraResult (exposure_value : ℝ) (exposure_type : String)
    (action_value limit_value : ℝ) (unit : String) : VibraResult :=
  { exposure_value := exposure_value
    exposure_type := exposure_type
    action_value := action_value
    limit_value := limit_value
    unit := unit
    exceeds_action := exposure_value > action_value
    exceeds_limit := exposure_value > limit_value }

/-- One input dictionary of the vibration batch entry points: keys
`name`, `aw`, `ax`, `ay`, `az`, `time`, each possibly absent. -/
structure Machine where
  name : Option String
  aw : Option ℝ
  ax : Option ℝ
  ay : Option ℝ
  az : Option ℝ
  time : Option ℝ

/-- The axis-checking loop shared by `HandArmVibrations._validate_inputs`
and `CompleteBodyVibrations._validate_inputs`:
`None` raises `ValueError(f"{id}- Missing required axis value: '{name}'")`,
a negative value raises `ValueError(f"{id}-'{name}' must be non-negative.")`.
(The `isinstance` numeric check between the two cannot fail in the
embedding.)  Returns the validated value. -/
noncomputable def checkAxis (id name : String) (v : Option ℝ) : Except String ℝ :=
  match v with
  | none => .error (id ++ "- Missing required axis value: '" ++ name ++ "'")
  | some x =>
      if x < 0 then .error (id ++ "-'" ++ name ++ "' must be non-negative.")
      else .ok x

/-- The message of the `TypeError` Python raises when `0 >= None` is
evaluated (exposure time key absent from a vibration record). -/
def pyNoneCompareMsg : String :=
  "'>=' not supported between instances of 'int' and 'NoneType'"

/-- The exposure-time check shared by both vibration validators:
`if 0 >= exposure_time_hours: raise ValueError(f"{id}-  Exposure time must be non-negative.")`.
When the `time` key is absent, `exposure_time_hours` is Python `None` and
the comparison `0 >= None` itself raises
`TypeError("'>=' not supported between instances of 'int' and 'NoneType'")`,
a message naming neither the record id nor a field. -/
noncomputable def checkTime (id : String) (t : Option ℝ) : Except String Unit :=
  match t with
  | none => .error pyNoneCompareMsg
  | some h =>
      if h ≤ 0 then .error (id ++ "-  Exposure time must be non-negative.")
      else .ok ()

/-- `HandArmVibrations` engine configuration. -/
structure HandArmVibrations where
  action_value : ℝ
  limit_value : ℝ
  unit : String

/-- `HandArmVibrations.__init__`: defaults 2.5 / 5 / "m/s²" when the
optional arguments are `None`. -/
def HandArmVibrations.make (action_value limit_value : Option ℝ) : HandArmVibrations :=
  { action_value := action_value.getD 2.5
    limit_value := limit_value.getD 5
    unit := "m/s²" }

/-- `HandArmVibrations._validate_inputs`.  Order of checks as in the source:
the `aw` / axes conflict first, then either the three-axis loop (when `aw`
is absent) or the `aw` checks (for a negative `aw` the source's message is
`f"{id}- 'aw' must be numeric."`), then the exposure time. -/
noncomputable def handArmValidate (id : String) (aw ax ay az t : Option ℝ) :
    Except String Unit :=
  if aw.isSome && (ax.isSome || ay.isSome || az.isSome) then
    .error (id ++ "- Must be provided either 'aw' or 'ax, ay, az', not both.")
  else
    (match aw with
      | none =>
          (checkAxis id "ax" ax).bind fun _ =>
          (checkAxis id "ay" ay).bind fun _ =>
          (checkAxis id "az" az).map fun _ => ()
      | some w =>
          if w < 0 then .error (id ++ "- 'aw' must be numeric.")
          else .ok ()).bind fun _ =>
    checkTime id t

/-- `HandArmVibrations._compute_aw`: return `aw` when given, else
`math.sqrt(ax**2 + ay**2 + az**2)`.  The `getD 0` defaults are reachable
only on inputs `_validate_inputs` has already rejected. -/
noncomputable def compute_aw (aw ax ay az : Option ℝ) : ℝ :=
  match aw with
  | some w => w
  | none => √((ax.getD 0) ^ 2 + (ay.getD 0) ^ 2 + (az.getD 0) ^ 2)

/-- `HandArmVibrations._compute_a8`: `aw * math.sqrt(exposure_time_hours / 8)`. -/
noncomputable def compute_a8 (aw exposure_time_hours : ℝ) : ℝ :=
  aw * √(exposure_time_hours / 8)

/-- `HandArmVibrations.calculate_a8`: validate, derive the vector magnitude,
normalize to 8 hours.  (`t.getD 0` is reachable only after a validation
error, since `checkTime` rejects an absent time.) -/
noncomputable def calculate_a8 (id : String) (ax ay az aw t : Option ℝ) :
    Except String ℝ :=
  (handArmValidate id aw ax ay az t).map fun _ =>
    compute_a8 (compute_aw aw ax ay az) (t.getD 0)

/-- `HandArmVibrations.calculate_total`: root-sum-of-squares of the
individual A(8) values, wrapped in a hand-arm `VibraResult`. -/
noncomputable def HandArmVibrations.calculate_total (self : HandArmVibrations)
    (list_of_exposure : List ℝ) : VibraResult :=
  mkVibraResult (√(sumSq list_of_exposure)) "hand-arm"
    self.action_value self.limit_value self.unit

/-- The record loop of `vibrations_hand_arm` (vibration_tools.py): records
are numbered from `idx`, an absent `name` defaults to `"Machine idx"`, and
each record's A(8) is computed in order; the first error aborts the batch. -/
noncomputable def handArmExposures (idx : ℕ) : List Machine → Except String (List ℝ)
  | [] => .ok []
  | m :: ms =>
      (calculate_a8 (m.name.getD ("Machine " ++ toString idx))
          m.ax m.ay m.az m.aw m.time).bind fun a8 =>
      (handArmExposures (idx + 1) ms).map fun rest => a8 :: rest

/-- `vibrations_hand_arm` (vibration_tools.py): per-record A(8) values, then
`calculate_total` on the collected list.  (The non-list and non-dict input
`TypeError`s are outside the typed embedding.) -/
noncomputable def vibrations_hand_arm (machines : List Machine)
    (action_value limit_value : Option ℝ) : Except String VibraResult :=
  let vib := HandArmVibrations.make action_value limit_value
  (handArmExposures 1 machines).map fun exposures =>
    vib.calculate_total exposures

/-- `CompleteBodyVibrations` engine configuration. -/
structure CompleteBodyVibrations where
  action_value : ℝ
  limit_value : ℝ
  unit : String

/-- `CompleteBodyVibrations.__init__`: defaults 0.5 / 1.15 / "m/s²". -/
def CompleteBodyVibrations.make (action_value limit_value : Option ℝ) :
    CompleteBodyVibrations :=
  { action_value := action_value.getD 0.5
    limit_value := limit_value.getD 1.15
    unit := "m/s²" }

/-- `CompleteBodyVibrations._validate_inputs`: the three-axis loop, then the
exposure-time check (both shared with the hand-arm validator). -/
noncomputable def bodyValidate (id : String) (ax ay az t : Option ℝ) :
    Except String Unit :=
  (checkAxis id "ax" ax).bind fun _ =>
  (checkAxis id "ay" ay).bind fun _ =>
  (checkAxis id "az" az).bind fun _ =>
  checkTime id t

/-- `CompleteBodyVibrations.calculate_A_vertex`: validate, then
`Ax = 1.4*ax*sqrt(t/8)`, `Ay = 1.4*ay*sqrt(t/8)`, `Az = az*sqrt(t/8)`. -/
noncomputable def calculate_A_vertex (id : String) (ax ay az t : Option ℝ) :
    Except String (ℝ × ℝ × ℝ) :=
  (bodyValidate id ax ay az t).map fun _ =>
    (1.4 * ax.getD 0 * √(t.getD 0 / 8),
     1.4 * ay.getD 0 * √(t.getD 0 / 8),
     az.getD 0 * √(t.getD 0 / 8))

/-- `CompleteBodyVibrations.calculate_total`: per-axis root-sum-of-squares,
then the maximum of the three axes (`max([A_x, A_y, A_z])`), wrapped in a
"body" `VibraResult`. -/
noncomputable def CompleteBodyVibrations.calculate_total
    (self : CompleteBodyVibrations) (exposure_x exposure_y exposure_z : List ℝ) :
    VibraResult :=
  let A_x := √(sumSq exposure_x)
  let A_y := √(sumSq exposure_y)
  let A_z := √(sumSq exposure_z)
  mkVibraResult (max (max A_x A_y) A_z) "body"
    self.action_value self.limit_value self.unit

/-- The record loop of `vibrations_body`: per-record weighted axis triples,
in order, first error aborting. -/
noncomputable def bodyVertices (idx : ℕ) : List Machine → Except String (List (ℝ × ℝ × ℝ))
  | [] => .ok []
  | m :: ms =>
      (calculate_A_vertex (m.name.getD ("Machine " ++ toString idx))
          m.ax m.ay m.az m.time).bind fun v =>
      (bodyVertices (idx + 1) ms).map fun rest => v :: rest

/-- `vibrations_body` (vibration_tools.py): collect the three per-axis
series (the loop's three `append`s are the three projections of the
collected triples), then `calculate_total`. -/
noncomputable def vibrations_body (machines : List Machine)
    (action_value limit_value : Option ℝ) : Except String VibraResult :=
  let vib := CompleteBodyVibrations.make action_value limit_value
  (bodyVertices 1 machines).map fun vs =>
    vib.calculate_total (vs.map (fun v => v.1)) (vs.map (fun v => v.2.1))
      (vs.map (fun v => v.2.2))

/-- `NoiseResult` (noise.py).  The three `exceeds` flags are computed at
construction from `_comparison_value` with `>=`; they are `Prop` fields
filled in by `mkNoiseResult`. -/
structure NoiseResult where
  exposure_value : ℝ
  with_hearing_protection : Bool
  protected_exposure_value : Option ℝ
  inf_action_value : ℝ
  sup_action_value : ℝ
  limit_value : ℝ
  comparison_value : ℝ
  exceeds_inf_action : Prop
  exceeds_sup_action : Prop
  exceeds_limit : Prop

/-- The truthiness fallback of `NoiseResult.__init__`:
`self._comparison_value = protected_laeq_d if protected_laeq_d else exposure_value`.
Python `None` and `0.0` are both falsy, so an absent protected value and a
protected value of exactly zero both fall back to the unprotected value. -/
noncomputable def comparisonValue (protected_laeq_d : Option ℝ) (exposure_value : ℝ) : ℝ :=
  match protected_laeq_d with
  | none => exposure_value
  | some p => if p = 0 then exposure_value else p

/-- `NoiseResult.__init__`: stores the fields, selects the comparison value
by truthiness, and computes the three flags with `>=`. -/
noncomputable def mkNoiseResult (exposure_value inf_action_value sup_action_value limit_value : ℝ)
    (with_hearing_protection : Bool) (protected_laeq_d : Option ℝ) : NoiseResult :=
  let c := comparisonValue protected_laeq_d exposure_value
  { exposure_value := exposure_value
    with_hearing_protection := with_hearing_protection
    protected_exposure_value := protected_laeq_d
    inf_action_value := inf_action_value
    sup_action_value := sup_action_value
    limit_value := limit_value
    comparison_value := c
    exceeds_inf_action := c ≥ inf_action_value
    exceeds_sup_action := c ≥ sup_action_value
    exceeds_limit := c ≥ limit_value }

/-- `NoiseExposure` engine configuration. -/
structure NoiseExposure where
  inf_action_value : ℝ
  sup_action_value : ℝ
  limit_value : ℝ

/-- `NoiseExposure.__init__`: defaults 80.0 / 85.0 / 87.0 dB(A). -/
def NoiseExposure.make (inf_action_value sup_action_value limit_value : Option ℝ) :
    NoiseExposure :=
  { inf_action_value := inf_action_value.getD 80
    sup_action_value := sup_action_value.getD 85
    limit_value := limit_value.getD 87 }

/-- One input dictionary of `noise_exposure`: keys `name`, `laeq_t`, `time`. -/
structure NoiseTask where
  name : Option String
  laeq_t : Option ℝ
  time : Option ℝ

/-- `NoiseExposure._validate_inputs`: the two `isinstance` checks fail only
when a key is absent (a present value is numeric in the embedding), then the
two strict-positivity checks, in source order. -/
noncomputable def noiseValidate (id : String) (laeq_t t : Option ℝ) :
    Except String Unit :=
  match laeq_t with
  | none => .error (id ++ ": LAeq,T must be a numeric value (int or float).")
  | some l =>
    match t with
    | none => .error (id ++ ": Exposure time must be a numeric value (int or float).")
    | some h =>
      if l ≤ 0 then .error (id ++ ": LAeq,T must be greater than zero.")
      else if h ≤ 0 then .error (id ++ ": Exposure time must be greater than zero.")
      else .ok ()

/-- `NoiseExposure.calculate_laeq_d`: validate, then
`laeq_t + 10*math.log10(exposure_time_minutes/480)`. -/
noncomputable def calculate_laeq_d (id : String) (laeq_t t : Option ℝ) :
    Except String ℝ :=
  (noiseValidate id laeq_t t).map fun _ =>
    laeq_t.getD 0 + 10 * logb 10 (t.getD 0 / 480)

/-- `math.log10`, which raises `ValueError("math domain error")` on a
non-positive argument (in particular on the empty energy sum `0.0`). -/
noncomputable def log10Checked (x : ℝ) : Except String ℝ :=
  if x ≤ 0 then .error "math domain error" else .ok (logb 10 x)

/-- `np.sum(10**(list_of_exposure/10))`: the linear energy sum of a list of
dB values. -/
noncomputable def energySum (l : List ℝ) : ℝ :=
  (l.map (fun v => (10 : ℝ) ^ (v / 10))).sum

/-- `NoiseExposure.calculate_total`:
`laeq_d = 10 * math.log10(np.sum(10**(arr/10)))`, then a `NoiseResult` with
the engine's thresholds (no hearing protection arguments are passed). -/
noncomputable def NoiseExposure.calculate_total (self : NoiseExposure)
    (list_of_exposure : List ℝ) : Except String NoiseResult :=
  (log10Checked (energySum list_of_exposure)).map fun lg =>
    mkNoiseResult (10 * lg) self.inf_action_value self.sup_action_value
      self.limit_value false none

/-- The record loop of `noise_exposure` (noise_tools.py): records numbered
from `idx`, absent `name` defaulting to `"Task idx"`. -/
noncomputable def noiseExposures (idx : ℕ) : List NoiseTask → Except String (List ℝ)
  | [] => .ok []
  | task :: ts =>
      (calculate_laeq_d (task.name.getD ("Task " ++ toString idx))
          task.laeq_t task.time).bind fun d =>
      (noiseExposures (idx + 1) ts).map fun rest => d :: rest

/-- `noise_exposure` (noise_tools.py): per-task LAeq,d values, then
`calculate_total` on the collected list. -/
noncomputable def noise_exposure (tasks : List NoiseTask)
    (inf_action_value sup_action_value limit_value : Option ℝ) :
    Except String NoiseResult :=
  let noi := NoiseExposure.make inf_action_value sup_action_value limit_value
  (noiseExposures 1 tasks).bind fun exposures =>
    noi.calculate_total exposures

/-- `RateResult` (accidents.py). -/
structure RateResult where
  rate_name : String
  rate_value : ℝ
  factor : ℝ
  num_unit : String
  den_unit : String

/-- `Rates._validate_input`: all elements of `num` and `den` must be
non-negative and both sums strictly positive (the numeric-dtype checks are
vacuous in the embedding).  Scalar inputs are one-element lists
(`np.atleast_1d`). -/
noncomputable def validate_input (num den : List ℝ) : Except String Unit :=
  if ¬ ((∀ x ∈ num, 0 ≤ x) ∧ ∀ x ∈ den, 0 ≤ x) then
    .error "All values must be positive."
  else if ¬ (0 < num.sum ∧ 0 < den.sum) then
    .error "The sum of num and the sum of den values must be superior to 0."
  else .ok ()

/-- `Rates.calculate` with an explicit factor (as called by
`LostDaysRate.calculate`): validate the inputs, validate the factor
(`Rates._validate_factor` rejects a non-positive factor), then
`(np.sum(num) * factor) / np.sum(den)`. -/
noncomputable def Rates.calculate (num den : List ℝ) (factor : ℝ) : Except String ℝ :=
  (validate_input num den).bind fun _ =>
  if factor ≤ 0 then .error "Factor must be a positive numeric value."
  else .ok (num.sum * factor / den.sum)

/-- `LostDaysRate.calculate`: frequency rate with factor `10**6`, severity
rate with factor `10**3`, then `rate_value = (sev_rate * 10**3) / freq_rate`,
wrapped in a `RateResult` with factor 1. -/
noncomputable def LostDaysRate.calculate (num_accidents hours_worked days_lost : List ℝ) :
    Except String RateResult :=
  (Rates.calculate num_accidents hours_worked (10 ^ 6)).bind fun freq_rate =>
  (Rates.calculate days_lost hours_worked (10 ^ 3)).map fun sev_rate =>
    { rate_name := "Lost Days Rate"
      rate_value := sev_rate * 10 ^ 3 / freq_rate
      factor := 1
      num_unit := "work days lost"
      den_unit := "accident" }

/-- `lost_days_rate` (accidents_tools.py): `LostDaysRate().calculate(...)`. -/
noncomputable def lost_days_rate (num_accidents hours_worked days_lost : List ℝ) :
    Except String RateResult :=
  LostDaysRate.calculate num_accidents hours_worked days_lost

/-! ### Basic evaluation lemmas -/

theorem sumSq_nil : sumSq [] = 0 := rfl

theorem sumSq_cons (x : ℝ) (l : List ℝ) : sumSq (x :: l) = x ^ 2 + sumSq l := by
  simp [sumSq]

theorem checkAxis_ok (id name : String) {x : ℝ} (h : 0 ≤ x) :
    checkAxis id name (some x) = .ok x := by
  simp [checkAxis, not_lt.mpr h]

theorem checkTime_ok (id : String) {h : ℝ} (hh : 0 < h) :
    checkTime id (some h) = .ok () := by
  simp [checkTime, not_le.mpr hh]

theorem calculate_a8_aw (id : String) {w h : ℝ} (hw : 0 ≤ w) (hh : 0 < h) :
    calculate_a8 id none none none (some w) (some h) = .ok (w * √(h / 8)) := by
  simp [calculate_a8, handArmValidate, checkTime_ok id hh, not_lt.mpr hw,
    Except.bind, Except.map, compute_aw, compute_a8]

theorem calculate_a8_axes (id : String) {a b c h : ℝ}
    (ha : 0 ≤ a) (hb : 0 ≤ b) (hc : 0 ≤ c) (hh : 0 < h) :
    calculate_a8 id (some a) (some b) (some c) none (some h)
      = .ok (√(a ^ 2 + b ^ 2 + c ^ 2) * √(h / 8)) := by
  simp [calculate_a8, handArmValidate, checkAxis_ok id "ax" ha, checkAxis_ok id "ay" hb,
    checkAxis_ok id "az" hc, checkTime_ok id hh, Except.bind, Except.map,
    compute_aw, compute_a8]

/-! ### Claim C5 -/

/-- Claim C5: noise results set each `exceeds` flag by `comparison_value ≥
threshold`, so a value exactly at a threshold raises the flag, while the
vibration results (hand-arm and whole-body, both built by
`mkVibraResult`) use strict `exposure_value > threshold`, so a value
exactly at a threshold leaves the flag false. -/
theorem claim_C5 :
    (∀ (v i s lim : ℝ) (hp : Bool) (p : Option ℝ),
      ((mkNoiseResult v i s lim hp p).exceeds_inf_action ↔ comparisonValue p v ≥ i) ∧
      ((mkNoiseResult v i s lim hp p).exceeds_sup_action ↔ comparisonValue p v ≥ s) ∧
      ((mkNoiseResult v i s lim hp p).exceeds_limit ↔ comparisonValue p v ≥ lim)) ∧
    (∀ (v : ℝ) (ty : String) (a l : ℝ) (u : String),
      ((mkVibraResult v ty a l u).exceeds_action ↔ v > a) ∧
      ((mkVibraResult v ty a l u).exceeds_limit ↔ v > l)) :=
  ⟨fun _ _ _ _ _ _ => ⟨Iff.rfl, Iff.rfl, Iff.rfl⟩, fun _ _ _ _ _ => ⟨Iff.rfl, Iff.rfl⟩⟩

/-! ### Claim C4 -/

/-- Claim C4 counterexample: with caller-overridden thresholds that invert
the order (action 5, limit 2.5), a hand-arm exposure of 3 sets
`exceeds_limit` without setting `exceeds_action`, violating the claimed
monotonicity for arbitrary overridden thresholds. -/
theorem claim_C4_counterexample :
    ExceptSat (vibrations_hand_arm
        [⟨none, some 3, none, none, none, some 8⟩] (some 5) (some 2.5))
      (fun r => r.exceeds_limit ∧ ¬ r.exceeds_action) := by
  have h1 : calculate_a8 ("Machine " ++ toString 1) none none none (some 3) (some 8)
      = .ok 3 := by
    rw [calculate_a8_aw _ (by norm_num) (by norm_num)]
    norm_num [Real.sqrt_one]
  have h9 : √(sumSq [(3 : ℝ)]) = 3 := by
    rw [sumSq_cons, sumSq_nil]
    rw [show (3 : ℝ) ^ 2 + 0 = 3 ^ 2 by ring, Real.sqrt_sq (by norm_num)]
  simp only [vibrations_hand_arm, handArmExposures, h1, Except.bind, Except.map,
    HandArmVibrations.make, HandArmVibrations.calculate_total, mkVibraResult,
    ExceptSat, Option.getD]
  rw [h9]
  norm_num

/-- Claim C4 amended: threshold-flag monotonicity holds for every result
whose configured thresholds are in ascending order (in particular for the
default thresholds of all three engines); it can fail when a caller
overrides the thresholds out of order. -/
theorem claim_C4_amended :
    (∀ (v : ℝ) (ty : String) (a l : ℝ) (u : String), a ≤ l →
      ((mkVibraResult v ty a l u).exceeds_limit →
        (mkVibraResult v ty a l u).exceeds_action)) ∧
    (∀ (v i s lim : ℝ) (hp : Bool) (p : Option ℝ), i ≤ s → s ≤ lim →
      (((mkNoiseResult v i s lim hp p).exceeds_limit →
          (mkNoiseResult v i s lim hp p).exceeds_sup_action) ∧
        ((mkNoiseResult v i s lim hp p).exceeds_sup_action →
          (mkNoiseResult v i s lim hp p).exceeds_inf_action))) := by
  constructor
  · intro v ty a l u hal hlim
    exact lt_of_le_of_lt hal hlim
  · intro v i s lim hp p his hsl
    exact ⟨fun h => le_trans hsl h, fun h => le_trans his h⟩

/-- Claim C4 amended, witnessed at the default hand-arm thresholds
(2.5 ≤ 5) with exposure 6 and the default noise thresholds with a
comparison value of 90. -/
theorem claim_C4_witness :
    (mkVibraResult 6 "hand-arm" 2.5 5 "m/s2").exceeds_action ∧
    (mkNoiseResult 90 80 85 87 false none).exceeds_sup_action := by
  constructor
  · exact claim_C4_amended.1 6 "hand-arm" 2.5 5 "m/s2" (by norm_num)
      (show (6 : ℝ) > 5 by norm_num)
  · exact (claim_C4_amended.2 90 80 85 87 false none (by norm_num) (by norm_num)).1
      (show comparisonValue none 90 ≥ 87 by simp [comparisonValue]; norm_num)

/-! ### Claim C7 -/

theorem sumSq_replicate (k : ℕ) (v : ℝ) :
    sumSq (List.replicate k v) = (k : ℝ) * v ^ 2 := by
  induction k with
  | zero => simp [sumSq]
  | succ n ih =>
      rw [List.replicate_succ, sumSq_cons, ih]
      push_cast
      ring

/-- Claim C7 counterexample: `calculate_total` on one copy of the
contribution `-1` yields exposure `sqrt((-1)^2) = 1`, not
`-1 * sqrt(1) = -1`; the RSS scaling law fails for a negative `v`. -/
theorem claim_C7_counterexample :
    ((HandArmVibrations.make none none).calculate_total
        (List.replicate 1 (-1))).exposure_value = 1 ∧
    ¬ ((HandArmVibrations.make none none).calculate_total
        (List.replicate 1 (-1))).exposure_value = (-1) * √((1 : ℕ) : ℝ) := by
  have h : ((HandArmVibrations.make none none).calculate_total
      (List.replicate 1 (-1))).exposure_value = 1 := by
    show √(sumSq (List.replicate 1 (-1))) = 1
    rw [sumSq_replicate]
    norm_num [Real.sqrt_one]
  refine ⟨h, ?_⟩
  rw [h]
  norm_num [Real.sqrt_one]

/-- Claim C7 amended: for every number of copies `k` and every
non-negative per-record contribution `v` (per-record contributions
`aw * sqrt(h/8)` are always non-negative), aggregating `k` copies of `v`
yields total exposure `v * sqrt(k)`. -/
theorem claim_C7_amended (k : ℕ) (v : ℝ) (hv : 0 ≤ v) :
    ((HandArmVibrations.make none none).calculate_total
        (List.replicate k v)).exposure_value = v * √(k : ℝ) := by
  show √(sumSq (List.replicate k v)) = v * √(k : ℝ)
  rw [sumSq_replicate, Real.sqrt_mul (Nat.cast_nonneg k), Real.sqrt_sq hv, mul_comm]

/-- Claim C7 amended, witnessed at two copies of the contribution 3. -/
theorem claim_C7_witness :
    ((HandArmVibrations.make none none).calculate_total
        (List.replicate 2 3)).exposure_value = 3 * √((2 : ℕ) : ℝ) :=
  claim_C7_amended 2 3 (by norm_num)

/-! ### Claim C2 -/

theorem sqrt_sumSq_single {x : ℝ} (hx : 0 ≤ x) : √(sumSq [x]) = x := by
  rw [sumSq_cons, sumSq_nil, add_zero, Real.sqrt_sq hx]

/-- Claim C2: for non-negative `a`, `b`, `c` and positive hours `h`,
`vibrations_hand_arm` on the single record `{aw: sqrt(a²+b²+c²), time: h}`
yields exposure `sqrt(a²+b²+c²) * sqrt(h/8)`, and the single record
`{ax: a, ay: b, az: c, time: h}` yields the same exposure. -/
theorem claim_C2 (a b c h : ℝ) (ha : 0 ≤ a) (hb : 0 ≤ b) (hc : 0 ≤ c) (hh : 0 < h) :
    ExceptSat (vibrations_hand_arm
        [⟨none, some (√(a ^ 2 + b ^ 2 + c ^ 2)), none, none, none, some h⟩] none none)
      (fun r => r.exposure_value = √(a ^ 2 + b ^ 2 + c ^ 2) * √(h / 8)) ∧
    ExceptSat (vibrations_hand_arm
        [⟨none, none, some a, some b, some c, some h⟩] none none)
      (fun r => r.exposure_value = √(a ^ 2 + b ^ 2 + c ^ 2) * √(h / 8)) := by
  have hx : 0 ≤ √(a ^ 2 + b ^ 2 + c ^ 2) * √(h / 8) :=
    mul_nonneg (Real.sqrt_nonneg _) (Real.sqrt_nonneg _)
  constructor
  · simp only [vibrations_hand_arm, handArmExposures, Option.getD_none,
      calculate_a8_aw ("Machine " ++ toString 1) (Real.sqrt_nonneg _) hh,
      Except.bind, Except.map, HandArmVibrations.calculate_total,
      HandArmVibrations.make, mkVibraResult, ExceptSat]
    exact sqrt_sumSq_single hx
  · simp only [vibrations_hand_arm, handArmExposures, Option.getD_none,
      calculate_a8_axes ("Machine " ++ toString 1) ha hb hc hh,
      Except.bind, Except.map, HandArmVibrations.calculate_total,
      HandArmVibrations.make, mkVibraResult, ExceptSat]
    exact sqrt_sumSq_single hx

/-- Claim C2, witnessed at `a = 1`, `b = 2`, `c = 2`, `h = 2`. -/
theorem claim_C2_witness :
    ExceptSat (vibrations_hand_arm
        [⟨none, some (√(1 ^ 2 + 2 ^ 2 + 2 ^ 2)), none, none, none, some 2⟩] none none)
      (fun r => r.exposure_value = √(1 ^ 2 + 2 ^ 2 + 2 ^ 2) * √(2 / 8)) ∧
    ExceptSat (vibrations_hand_arm
        [⟨none, none, some 1, some 2, some 2, some 2⟩] none none)
      (fun r => r.exposure_value = √(1 ^ 2 + 2 ^ 2 + 2 ^ 2) * √(2 / 8)) :=
  claim_C2 1 2 2 2 (by norm_num) (by norm_num) (by norm_num) (by norm_num)

/-! ### Claim C1 -/

/-- A whole-body machine record is valid when all three axes are present
and non-negative and the exposure time is present and positive. -/
def ValidBody (m : Machine) : Prop :=
  (∃ x, m.ax = some x ∧ 0 ≤ x) ∧ (∃ y, m.ay = some y ∧ 0 ≤ y) ∧
  (∃ z, m.az = some z ∧ 0 ≤ z) ∧ (∃ h, m.time = some h ∧ 0 < h)

/-- The weighted axis triple `calculate_A_vertex` produces for a valid
machine record. -/
noncomputable def bodyTriple (m : Machine) : ℝ × ℝ × ℝ :=
  (1.4 * m.ax.getD 0 * √(m.time.getD 0 / 8),
   1.4 * m.ay.getD 0 * √(m.time.getD 0 / 8),
   m.az.getD 0 * √(m.time.getD 0 / 8))

theorem calculate_A_vertex_valid (id : String) (m : Machine) (hm : ValidBody m) :
    calculate_A_vertex id m.ax m.ay m.az m.time = .ok (bodyTriple m) := by
  obtain ⟨⟨x, hx, hx0⟩, ⟨y, hy, hy0⟩, ⟨z, hz, hz0⟩, ⟨t, ht, ht0⟩⟩ := hm
  simp [calculate_A_vertex, bodyValidate, hx, hy, hz, ht,
    checkAxis_ok id "ax" hx0, checkAxis_ok id "ay" hy0, checkAxis_ok id "az" hz0,
    checkTime_ok id ht0, Except.bind, Except.map, bodyTriple]

theorem bodyVertices_valid (idx : ℕ) (ms : List Machine)
    (hv : ∀ m ∈ ms, ValidBody m) :
    bodyVertices idx ms = .ok (ms.map bodyTriple) := by
  induction ms generalizing idx with
  | nil => rfl
  | cons m ms ih =>
      simp only [bodyVertices, calculate_A_vertex_valid _ m (hv m (by simp)),
        ih (idx + 1) (fun m' hm' => hv m' (by simp [hm'])), Except.bind, Except.map,
        List.map]

/-- Claim C1: on a list of valid machine records, `vibrations_body` yields
exposure `max(A_x, A_y, A_z)` where each per-axis aggregate is
`A_axis = sqrt(Σᵢ (w · axisᵢ · sqrt(hᵢ/8))²)` with weight 1.4 on the x and
y axes and 1.0 on the z axis. -/
theorem claim_C1 (ms : List Machine) (av lv : Option ℝ)
    (hv : ∀ m ∈ ms, ValidBody m) :
    ExceptSat (vibrations_body ms av lv) (fun r =>
      r.exposure_value =
        max (max (√(sumSq (ms.map fun m => 1.4 * m.ax.getD 0 * √(m.time.getD 0 / 8))))
                 (√(sumSq (ms.map fun m => 1.4 * m.ay.getD 0 * √(m.time.getD 0 / 8)))))
            (√(sumSq (ms.map fun m => 1 * (m.az.getD 0) * √(m.time.getD 0 / 8))))) := by
  simp only [vibrations_body, bodyVertices_valid 1 ms hv, Except.map, ExceptSat,
    CompleteBodyVibrations.calculate_total, CompleteBodyVibrations.make,
    mkVibraResult, List.map_map, Function.comp_def, bodyTriple, one_mul]

/-- The whole-body example record of the spec:
`ax = 0.5, ay = 0.4, az = 0.3, time = 4`. -/
noncomputable def specBodyMachine : Machine :=
  ⟨none, none, some 0.5, some 0.4, some 0.3, some 4⟩

/-- Claim C1, witnessed at the spec's whole-body example record. -/
theorem claim_C1_witness :
    ExceptSat (vibrations_body [specBodyMachine] none none)
      (fun r =>
        r.exposure_value =
          max (max (√(sumSq ([specBodyMachine].map
                    fun m => 1.4 * m.ax.getD 0 * √(m.time.getD 0 / 8))))
                   (√(sumSq ([specBodyMachine].map
                    fun m => 1.4 * m.ay.getD 0 * √(m.time.getD 0 / 8)))))
              (√(sumSq ([specBodyMachine].map
                    fun m => 1 * (m.az.getD 0) * √(m.time.getD 0 / 8))))) :=
  claim_C1 [specBodyMachine] none none
    (by
      rintro m hm
      rw [List.mem_singleton] at hm
      subst hm
      exact ⟨⟨0.5, rfl, by norm_num⟩, ⟨0.4, rfl, by norm_num⟩,
        ⟨0.3, rfl, by norm_num⟩, ⟨4, rfl, by norm_num⟩⟩)

/-! ### Noise evaluation lemmas -/

theorem energySum_nil : energySum [] = 0 := rfl

theorem energySum_cons (v : ℝ) (l : List ℝ) :
    energySum (v :: l) = (10 : ℝ) ^ (v / 10) + energySum l := by
  simp [energySum]

theorem energySum_nonneg (l : List ℝ) : 0 ≤ energySum l := by
  induction l with
  | nil => rw [energySum_nil]
  | cons v l ih =>
      rw [energySum_cons]
      exact add_nonneg (Real.rpow_pos_of_pos (by norm_num) _).le ih

theorem energySum_pos {l : List ℝ} (h : l ≠ []) : 0 < energySum l := by
  cases l with
  | nil => exact absurd rfl h
  | cons v l =>
      rw [energySum_cons]
      exact add_pos_of_pos_of_nonneg (Real.rpow_pos_of_pos (by norm_num) _)
        (energySum_nonneg l)

theorem log10Checked_pos {x : ℝ} (hx : 0 < x) :
    log10Checked x = .ok (logb 10 x) := by
  simp [log10Checked, not_le.mpr hx]

theorem calculate_total_nonempty (eng : NoiseExposure) {l : List ℝ} (h : l ≠ []) :
    eng.calculate_total l = .ok (mkNoiseResult (10 * logb 10 (energySum l))
      eng.inf_action_value eng.sup_action_value eng.limit_value false none) := by
  rw [NoiseExposure.calculate_total, log10Checked_pos (energySum_pos h)]
  rfl

theorem mkNoiseResult_exposure (v i s lim : ℝ) (hp : Bool) (p : Option ℝ) :
    (mkNoiseResult v i s lim hp p).exposure_value = v := rfl

theorem mkNoiseResult_inf (v i s lim : ℝ) (hp : Bool) (p : Option ℝ) :
    (mkNoiseResult v i s lim hp p).exceeds_inf_action ↔ comparisonValue p v ≥ i :=
  Iff.rfl

theorem mkNoiseResult_sup (v i s lim : ℝ) (hp : Bool) (p : Option ℝ) :
    (mkNoiseResult v i s lim hp p).exceeds_sup_action ↔ comparisonValue p v ≥ s :=
  Iff.rfl

theorem mkNoiseResult_lim (v i s lim : ℝ) (hp : Bool) (p : Option ℝ) :
    (mkNoiseResult v i s lim hp p).exceeds_limit ↔ comparisonValue p v ≥ lim :=
  Iff.rfl

theorem comparisonValue_none (v : ℝ) : comparisonValue none v = v := rfl

/-- `10 * log10(10^(v/10))`: a single-element decibel total round-trips. -/
theorem dbRoundTrip (v : ℝ) : 10 * logb 10 (energySum [v]) = v := by
  rw [energySum_cons, energySum_nil, add_zero,
    Real.logb_rpow (by norm_num) (by norm_num)]
  ring

theorem noise_single_total (eng : NoiseExposure) (v : ℝ) :
    eng.calculate_total [v] = .ok (mkNoiseResult v
      eng.inf_action_value eng.sup_action_value eng.limit_value false none) := by
  rw [calculate_total_nonempty eng (List.cons_ne_nil _ _), dbRoundTrip]

/-- The full noise pipeline on the single task `{laeq_t: 85, time: 240}`
with default thresholds. -/
theorem noise85_240 :
    noise_exposure [⟨none, some 85, some 240⟩] none none none
      = .ok (mkNoiseResult (85 + 10 * logb 10 (240 / 480)) 80 85 87 false none) := by
  have h1 : noiseExposures 1 [(⟨none, some 85, some 240⟩ : NoiseTask)]
      = .ok [85 + 10 * logb 10 (240 / 480)] := by
    norm_num [noiseExposures, calculate_laeq_d, noiseValidate, Except.bind, Except.map]
  rw [noise_exposure, h1]
  show (NoiseExposure.make none none none).calculate_total [85 + 10 * logb 10 (240 / 480)]
    = _
  rw [noise_single_total]
  rfl

theorem logb_ten_two_le_half : logb 10 2 ≤ 1 / 2 := by
  rw [Real.logb_le_iff_le_rpow (by norm_num) (by norm_num), ← Real.sqrt_eq_rpow]
  exact (Real.le_sqrt (by norm_num) (by norm_num)).mpr (by norm_num)

theorem logb_240_480 : logb 10 ((240 : ℝ) / 480) = -(logb 10 2) := by
  rw [show ((240 : ℝ) / 480) = (2 : ℝ)⁻¹ by norm_num, Real.logb_inv]

theorem logb_240_480_neg : logb 10 ((240 : ℝ) / 480) < 0 :=
  Real.logb_neg (by norm_num) (by norm_num) (by norm_num)

/-! ### Claim C3 -/

/-- Claim C3 counterexample: the single-task noise call
`[{laeq_t: 85, time: 240}]` yields the claimed exposure
`85 + 10*log10(240/480) ≈ 81.99 dB`, but that value is at or above the
default inferior action threshold of 80 dB, so `exceeds_inf_action` is
true, contradicting the claim that it is false. -/
theorem claim_C3_counterexample :
    ExceptSat (noise_exposure [⟨none, some 85, some 240⟩] none none none)
      (fun r => r.exposure_value = 85 + 10 * logb 10 (240 / 480) ∧
        r.exceeds_inf_action) := by
  rw [noise85_240]
  refine ⟨rfl, ?_⟩
  rw [mkNoiseResult_inf, comparisonValue_none, logb_240_480]
  have := logb_ten_two_le_half
  linarith

/-- Claim C3 amended: the single-task call yields exposure
`85 + 10*log10(240/480) ≈ 81.99 dB`; this is below the default superior
action threshold (85) and the limit (87), so `exceeds_sup_action` and
`exceeds_limit` are false, but it is at or above the inferior action
threshold (80), so `exceeds_inf_action` is true. -/
theorem claim_C3_amended :
    ExceptSat (noise_exposure [⟨none, some 85, some 240⟩] none none none)
      (fun r => r.exposure_value = 85 + 10 * logb 10 (240 / 480) ∧
        r.exceeds_inf_action ∧ ¬ r.exceeds_sup_action ∧ ¬ r.exceeds_limit) := by
  rw [noise85_240]
  have hneg := logb_240_480_neg
  have hle := logb_ten_two_le_half
  refine ⟨rfl, ?_, ?_, ?_⟩
  · rw [mkNoiseResult_inf, comparisonValue_none, logb_240_480]
    linarith
  · rw [mkNoiseResult_sup, comparisonValue_none]
    intro habs
    linarith
  · rw [mkNoiseResult_lim, comparisonValue_none]
    intro habs
    linarith

/-! ### Claim C6 -/

/-- Claim C6: decibel combination is independent of list order and of
grouping — with the default engine, combining `[a, b]` gives the same
level as `[b, a]`, and combining the combined level of `[a, b]` with `c`
gives the same level as combining `[a, b, c]` in one call. -/
theorem claim_C6 (a b c : ℝ) :
    ExceptSat ((NoiseExposure.make none none none).calculate_total [a, b]) (fun rab =>
      (ExceptSat ((NoiseExposure.make none none none).calculate_total [b, a]) fun rba =>
        rab.exposure_value = rba.exposure_value) ∧
      ExceptSat ((NoiseExposure.make none none none).calculate_total
          [rab.exposure_value, c])
        (fun r2 => ExceptSat ((NoiseExposure.make none none none).calculate_total
            [a, b, c])
          (fun r3 => r2.exposure_value = r3.exposure_value))) := by
  rw [calculate_total_nonempty _ (List.cons_ne_nil _ _)]
  show _ ∧ _
  constructor
  · rw [calculate_total_nonempty _ (List.cons_ne_nil _ _)]
    show 10 * logb 10 (energySum [a, b]) = 10 * logb 10 (energySum [b, a])
    have : energySum [a, b] = energySum [b, a] := by
      simp only [energySum_cons, energySum_nil]
      ring
    rw [this]
  · rw [calculate_total_nonempty _ (List.cons_ne_nil _ _),
      calculate_total_nonempty _ (List.cons_ne_nil _ _)]
    show 10 * logb 10 (energySum [(mkNoiseResult (10 * logb 10 (energySum [a, b]))
        80 85 87 false none).exposure_value, c])
      = 10 * logb 10 (energySum [a, b, c])
    rw [mkNoiseResult_exposure]
    have hround : (10 : ℝ) ^ ((10 * logb 10 (energySum [a, b])) / 10)
        = energySum [a, b] := by
      rw [mul_div_cancel_left₀ _ (by norm_num : (10 : ℝ) ≠ 0)]
      exact Real.rpow_logb (by norm_num) (by norm_num)
        (energySum_pos (List.cons_ne_nil _ _))
    have : energySum [10 * logb 10 (energySum [a, b]), c] = energySum [a, b, c] := by
      rw [energySum_cons (10 * logb 10 (energySum [a, b])) [c], hround]
      simp only [energySum_cons, energySum_nil]
      ring
    rw [this]

/-! ### Claim C9 -/

/-- A noise task record is valid when `laeq_t` and `time` are both present
and strictly positive. -/
def ValidNoiseTask (task : NoiseTask) : Prop :=
  (∃ l, task.laeq_t = some l ∧ 0 < l) ∧ (∃ m, task.time = some m ∧ 0 < m)

theorem calculate_laeq_d_valid (id : String) (task : NoiseTask)
    (h : ValidNoiseTask task) :
    calculate_laeq_d id task.laeq_t task.time
      = .ok (task.laeq_t.getD 0 + 10 * logb 10 (task.time.getD 0 / 480)) := by
  obtain ⟨⟨l, hl, hl0⟩, ⟨m, hm, hm0⟩⟩ := h
  simp [calculate_laeq_d, noiseValidate, hl, hm, not_le.mpr hl0, not_le.mpr hm0,
    Except.map]

theorem noiseExposures_valid (idx : ℕ) (ts : List NoiseTask)
    (hv : ∀ t ∈ ts, ValidNoiseTask t) :
    noiseExposures idx ts
      = .ok (ts.map fun task =>
          task.laeq_t.getD 0 + 10 * logb 10 (task.time.getD 0 / 480)) := by
  induction ts generalizing idx with
  | nil => rfl
  | cons task ts ih =>
      simp only [noiseExposures, calculate_laeq_d_valid _ task (hv task (by simp)),
        ih (idx + 1) (fun t ht => hv t (by simp [ht])), Except.bind, Except.map,
        List.map]

/-- Claim C9: `noise_exposure` on the empty list fails with the bare
`math domain error` of `log10(0)` (a message carrying no record id or
field name), while on any non-empty list of valid records it returns a
`NoiseResult`. -/
theorem claim_C9 :
    noise_exposure [] none none none = .error "math domain error" ∧
    ∀ (ts : List NoiseTask), ts ≠ [] → (∀ t ∈ ts, ValidNoiseTask t) →
      ∃ r, noise_exposure ts none none none = .ok r := by
  constructor
  · rw [noise_exposure]
    show (NoiseExposure.make none none none).calculate_total [] = _
    rw [NoiseExposure.calculate_total, energySum_nil]
    rw [show log10Checked 0 = .error "math domain error" by
      simp [log10Checked]]
    rfl
  · intro ts hne hv
    have h2 := @calculate_total_nonempty (NoiseExposure.make none none none)
      (ts.map fun task => task.laeq_t.getD 0 + 10 * logb 10 (task.time.getD 0 / 480))
      (fun habs => hne (List.map_eq_nil_iff.mp habs))
    exact ⟨_, by rw [noise_exposure, noiseExposures_valid 1 ts hv]; exact h2⟩

/-- Claim C9, witnessed at the non-empty valid list
`[{laeq_t: 85, time: 240}]`. -/
theorem claim_C9_witness :
    ∃ r, noise_exposure [⟨none, some 85, some 240⟩] none none none = .ok r :=
  claim_C9.2 [⟨none, some 85, some 240⟩] (List.cons_ne_nil _ _)
    (by
      rintro t ht
      rw [List.mem_singleton] at ht
      subst ht
      exact ⟨⟨85, rfl, by norm_num⟩, ⟨240, rfl, by norm_num⟩⟩)

/-! ### Claim C8 -/

/-- Claim C8 counterexample: a hand-arm record whose required `time` field
is missing is an invalid record, yet the batch fails with the constant
Python comparison `TypeError` — a message naming neither the record id nor
the offending field.  Two such batches with different record names and
different magnitudes produce the identical error. -/
theorem claim_C8_counterexample :
    vibrations_hand_arm [⟨some "M1", some 3, none, none, none, none⟩] none none
      = .error pyNoneCompareMsg ∧
    vibrations_hand_arm [⟨some "Grinder", some 2, none, none, none, none⟩] none none
      = .error pyNoneCompareMsg := by
  constructor <;>
    norm_num [vibrations_hand_arm, handArmExposures, calculate_a8, handArmValidate,
      checkTime, Except.bind, Except.map, HandArmVibrations.make]

/-- Claim C8 amended: every invalid hand-arm record aborts the batch
synchronously with the error of its first failed check; for a missing
axis, conflicting `aw` with axis fields, a negative magnitude or a
non-positive exposure time the message is the record id followed by text
naming the offending field — in particular `ax` and `az` present with
`ay` missing fails naming `'ay'` — but a record missing the required
`time` field fails with a constant `TypeError` naming neither the record
id nor the field. -/
theorem claim_C8_amended :
    (∀ (nm : String) (x z : ℝ) (t : Option ℝ), 0 ≤ x →
      vibrations_hand_arm [⟨some nm, none, some x, none, some z, t⟩] none none
        = .error (nm ++ "- Missing required axis value: 'ay'")) ∧
    (∀ (nm : String) (w x : ℝ) (t : Option ℝ),
      vibrations_hand_arm [⟨some nm, some w, some x, none, none, t⟩] none none
        = .error (nm ++ "- Must be provided either 'aw' or 'ax, ay, az', not both.")) ∧
    (∀ (nm : String) (w : ℝ) (t : Option ℝ), w < 0 →
      vibrations_hand_arm [⟨some nm, some w, none, none, none, t⟩] none none
        = .error (nm ++ "- 'aw' must be numeric.")) ∧
    (∀ (nm : String) (w h : ℝ), 0 ≤ w → h ≤ 0 →
      vibrations_hand_arm [⟨some nm, some w, none, none, none, some h⟩] none none
        = .error (nm ++ "-  Exposure time must be non-negative.")) ∧
    (∀ (nm : String) (w : ℝ), 0 ≤ w →
      vibrations_hand_arm [⟨some nm, some w, none, none, none, none⟩] none none
        = .error pyNoneCompareMsg) := by
  refine ⟨?_, ?_, ?_, ?_, ?_⟩
  · intro nm x z t hx
    simp [vibrations_hand_arm, handArmExposures, calculate_a8, handArmValidate,
      checkAxis, not_lt.mpr hx, Except.bind, Except.map, HandArmVibrations.make]
    rw [String.append_assoc, String.append_assoc]
    exact congrArg (fun s => nm ++ s) (by rfl)
  · intro nm w x t
    simp [vibrations_hand_arm, handArmExposures, calculate_a8, handArmValidate,
      Except.bind, Except.map, HandArmVibrations.make]
  · intro nm w t hw
    simp [vibrations_hand_arm, handArmExposures, calculate_a8, handArmValidate,
      hw, Except.bind, Except.map, HandArmVibrations.make]
  · intro nm w h hw hh
    simp [vibrations_hand_arm, handArmExposures, calculate_a8, handArmValidate,
      checkTime, not_lt.mpr hw, hh, Except.bind, Except.map, HandArmVibrations.make]
  · intro nm w hw
    simp [vibrations_hand_arm, handArmExposures, calculate_a8, handArmValidate,
      checkTime, not_lt.mpr hw, Except.bind, Except.map, HandArmVibrations.make]

/-- Claim C8 amended, witnessed on concrete invalid records of each kind. -/
theorem claim_C8_witness :
    vibrations_hand_arm [⟨some "Drill", none, some 1, none, some 2, some 3⟩] none none
      = .error ("Drill" ++ "- Missing required axis value: 'ay'") ∧
    vibrations_hand_arm [⟨some "Drill", some 1.6, some 1, none, none, some 3⟩] none none
      = .error ("Drill" ++ "- Must be provided either 'aw' or 'ax, ay, az', not both.") ∧
    vibrations_hand_arm [⟨some "Drill", some (-1), none, none, none, some 3⟩] none none
      = .error ("Drill" ++ "- 'aw' must be numeric.") ∧
    vibrations_hand_arm [⟨some "Drill", some 1.6, none, none, none, some 0⟩] none none
      = .error ("Drill" ++ "-  Exposure time must be non-negative.") :=
  ⟨claim_C8_amended.1 "Drill" 1 2 (some 3) (by norm_num),
   claim_C8_amended.2.1 "Drill" 1.6 1 (some 3),
   claim_C8_amended.2.2.1 "Drill" (-1) (some 3) (by norm_num),
   claim_C8_amended.2.2.2.1 "Drill" 1.6 0 (by norm_num) (by norm_num)⟩

/-! ### Claim C10 -/

/-- Claim C10: for valid inputs (all entries non-negative, all three sums
positive), the lost-days rate equals `sum(days_lost) / sum(num_accidents)`
— the hours-worked denominators of the intermediate frequency and severity
rates cancel exactly, so the result is independent of `hours_worked`. -/
theorem claim_C10 (acc hrs days : List ℝ)
    (hacc : ∀ x ∈ acc, 0 ≤ x) (hhrs : ∀ x ∈ hrs, 0 ≤ x) (hdays : ∀ x ∈ days, 0 ≤ x)
    (pacc : 0 < acc.sum) (phrs : 0 < hrs.sum) (pdays : 0 < days.sum) :
    ExceptSat (lost_days_rate acc hrs days)
      (fun r => r.rate_value = days.sum / acc.sum) := by
  have v1 : validate_input acc hrs = .ok () := by
    rw [validate_input, if_neg (not_not_intro ⟨hacc, hhrs⟩),
      if_neg (not_not_intro ⟨pacc, phrs⟩)]
  have v2 : validate_input days hrs = .ok () := by
    rw [validate_input, if_neg (not_not_intro ⟨hdays, hhrs⟩),
      if_neg (not_not_intro ⟨pdays, phrs⟩)]
  have r1 : Rates.calculate acc hrs (10 ^ 6) = .ok (acc.sum * 10 ^ 6 / hrs.sum) := by
    rw [Rates.calculate, v1]
    simp only [Except.bind]
    rw [if_neg (by norm_num : ¬ ((10 : ℝ) ^ 6 ≤ 0))]
  have r2 : Rates.calculate days hrs (10 ^ 3) = .ok (days.sum * 10 ^ 3 / hrs.sum) := by
    rw [Rates.calculate, v2]
    simp only [Except.bind]
    rw [if_neg (by norm_num : ¬ ((10 : ℝ) ^ 3 ≤ 0))]
  rw [lost_days_rate, LostDaysRate.calculate, r1, r2]
  simp only [Except.bind, Except.map, ExceptSat]
  show days.sum * 10 ^ 3 / hrs.sum * 10 ^ 3 / (acc.sum * 10 ^ 6 / hrs.sum)
    = days.sum / acc.sum
  have h1 : hrs.sum ≠ 0 := ne_of_gt phrs
  have h2 : acc.sum ≠ 0 := ne_of_gt pacc
  field_simp
  ring

/-- Claim C10, witnessed at the example of the source's docstring:
accidents `[3, 2]`, hours `[50000, 60000]`, lost days `[45, 30]`. -/
theorem claim_C10_witness :
    ExceptSat (lost_days_rate [3, 2] [50000, 60000] [45, 30])
      (fun r => r.rate_value = ([45, 30] : List ℝ).sum / ([3, 2] : List ℝ).sum) :=
  claim_C10 [3, 2] [50000, 60000] [45, 30]
    (by intro x hx; simp at hx; rcases hx with h | h <;> simp [h])
    (by intro x hx; simp at hx; rcases hx with h | h <;> simp [h])
    (by intro x hx; simp at hx; rcases hx with h | h <;> simp [h])
    (by simp; norm_num) (by simp; norm_num) (by simp; norm_num)

end Jsapy
